import Mathlib

/-
Verification of the MCP dispatch layer of the llm-tools repository.

This file gives a shallow embedding of the two Python MCP servers
(src/mcp/llm-support-mcp.py and src/mcp/llm-clarification-mcp.py):
the dynamically typed argument values, the per-operation argument
builders (the `_build_*_args` methods), the per-call backend choice
(`Path(BINARY_PATH).exists()`), the `call_tool` dispatch handlers, and
the normalization of a child-process outcome into the single textual
payload returned to the caller.  Process execution itself is modelled
by an oracle `Oracle : List String -> Nat -> ExecOutcome` standing for
`subprocess.run(cmd, timeout=t)`: it may complete (exit code, stdout,
stderr), time out (`subprocess.TimeoutExpired`), or raise any other
exception (e.g. `FileNotFoundError` when the executable is missing).
-/

set_option maxRecDepth 10000

namespace LlmTools

/-- Dynamically typed argument values as they occur in the MCP tool
schemas: strings, integers, booleans, lists of strings (`paths`), and
string-to-string maps (`vars`). -/
inductive Value where
  | vStr (s : String)
  | vInt (n : Int)
  | vBool (b : Bool)
  | vList (xs : List String)
  | vMap (kvs : List (String × String))
deriving DecidableEq

/-- An argument map: insertion-ordered key/value pairs, modelling a
Python dict (whose iteration order is insertion order and whose keys
are unique). -/
abbrev ArgMap := List (String × Value)

/-- Rendering of a value as a single command token, modelling how the
Python code places `args[k]` (a string per schema) or `str(args[k])`
(an integer per schema) into the command list. -/
def Value.pyStr : Value → String
  | .vStr s => s
  | .vInt n => toString n
  | .vBool b => if b then "True" else "False"
  | .vList _ => "<list>"
  | .vMap _ => "<dict>"

/-- All token strings a stored value can contribute to a compiled
command: its scalar rendering, the elements of a list value, and the
`key=value` renderings of a map value. -/
def Value.emits : Value → List String
  | .vList xs => "<list>" :: xs
  | .vMap kvs => "<dict>" :: kvs.map (fun p => p.1 ++ "=" ++ p.2)
  | v => [v.pyStr]

/-- Python truthiness of a value, as tested by `if args.get(k):`. -/
def Value.truthy : Value → Bool
  | .vStr s => s ≠ ""
  | .vInt n => n ≠ 0
  | .vBool b => b
  | .vList xs => !xs.isEmpty
  | .vMap kvs => !kvs.isEmpty

/-- Dictionary lookup (`args[k]` / `args.get(k)`), first matching key. -/
def amLookup : ArgMap → String → Option Value
  | [], _ => none
  | (k, v) :: rest, key => if k = key then some v else amLookup rest key

/-- Truthiness of `args.get(k)`: `False` when the key is absent. -/
def truthyAt (a : ArgMap) (k : String) : Bool :=
  match amLookup a k with
  | some v => v.truthy
  | none => false

/-- Tokens contributed by `if k in args: cmd_args.append(args[k])`. -/
def posStr (a : ArgMap) (k : String) : List String :=
  match amLookup a k with
  | some v => [v.pyStr]
  | none => []

/-- Tokens contributed by `if k in args: cmd_args.extend(args[k])` for
a list-valued parameter: one token per element, in input order. -/
def posList (a : ArgMap) (k : String) : List String :=
  match amLookup a k with
  | some (.vList xs) => xs
  | some v => [v.pyStr]
  | none => []

/-- Tokens contributed by `if k in args: cmd_args.extend([flag, args[k]])`
(also covers the `str(...)` variant for integer parameters). -/
def flagStr (a : ArgMap) (k flagName : String) : List String :=
  match amLookup a k with
  | some v => [flagName, v.pyStr]
  | none => []

/-- Tokens contributed by `if args.get(k): cmd_args.append(flag)`:
a bare flag, only when the value is present and truthy. -/
def boolFlag (a : ArgMap) (k flagName : String) : List String :=
  if truthyAt a k then [flagName] else []

/-- Tokens contributed by the `--var key=value` expansion of the
template command's `vars` map, in the map's iteration order. -/
def varTokens (kvs : List (String × String)) : List String :=
  kvs.flatMap fun p => ["--var", p.1 ++ "=" ++ p.2]

/- Argument builders of src/mcp/llm-support-mcp.py, one per
`_build_*_args` method, preserving the source's append order. -/

/-- Embedding of `_build_tree_args`. -/
def buildTreeArgs (a : ArgMap) : List String :=
  flagStr a "path" "--path" ++ flagStr a "depth" "--depth" ++
  boolFlag a "sizes" "--sizes" ++ boolFlag a "no_gitignore" "--no-gitignore"

/-- Embedding of `_build_grep_args`. -/
def buildGrepArgs (a : ArgMap) : List String :=
  posStr a "pattern" ++ posList a "paths" ++
  boolFlag a "ignore_case" "-i" ++ boolFlag a "line_numbers" "-n" ++
  boolFlag a "files_only" "-l"

/-- Embedding of `_build_multiexists_args`; the trailing `--no-fail`
token is appended unconditionally. -/
def buildMultiexistsArgs (a : ArgMap) : List String :=
  (posList a "paths" ++ boolFlag a "verbose" "--verbose") ++ ["--no-fail"]

/-- Embedding of `_build_json_query_args`. -/
def buildJsonQueryArgs (a : ArgMap) : List String :=
  posStr a "file" ++ posStr a "query"

/-- Embedding of `_build_markdown_headers_args`. -/
def buildMarkdownHeadersArgs (a : ArgMap) : List String :=
  posStr a "file" ++ flagStr a "level" "--level" ++ boolFlag a "plain" "--plain"

/-- Embedding of `_build_template_args`.  A non-map value stored under
`vars` would raise in Python while iterating `.items()`; that raise is
absorbed by the dispatcher's exception handler and is modelled at the
oracle level, so the builder contributes no tokens for it here. -/
def buildTemplateArgs (a : ArgMap) : List String :=
  posStr a "file" ++
  (match amLookup a "vars" with
   | some (.vMap kvs) => varTokens kvs
   | some _ => []
   | none => []) ++
  flagStr a "syntax" "--syntax"

/-- Embedding of `_build_discover_tests_args`. -/
def buildDiscoverTestsArgs (a : ArgMap) : List String :=
  flagStr a "path" "--path" ++ boolFlag a "json" "--json"

/-- Embedding of `_build_multigrep_args`. -/
def buildMultigrepArgs (a : ArgMap) : List String :=
  flagStr a "keywords" "--keywords" ++ flagStr a "path" "--path" ++
  flagStr a "extensions" "--extensions" ++
  flagStr a "max_per_keyword" "--max-per-keyword" ++
  boolFlag a "ignore_case" "--ignore-case" ++
  boolFlag a "definitions_only" "--definitions-only" ++
  boolFlag a "json" "--json" ++ flagStr a "output_dir" "--output-dir"

/-- Embedding of `_build_analyze_deps_args`. -/
def buildAnalyzeDepsArgs (a : ArgMap) : List String :=
  posStr a "file" ++ boolFlag a "json" "--json"

/-- Embedding of `_build_detect_args`. -/
def buildDetectArgs (a : ArgMap) : List String :=
  flagStr a "path" "--path" ++ boolFlag a "json" "--json"

/-- Embedding of `_build_count_args`. -/
def buildCountArgs (a : ArgMap) : List String :=
  flagStr a "mode" "--mode" ++ posStr a "target" ++
  boolFlag a "recursive" "--recursive" ++ flagStr a "pattern" "--pattern"

/-- Embedding of `_build_summarize_dir_args`. -/
def buildSummarizeDirArgs (a : ArgMap) : List String :=
  flagStr a "path" "--path" ++ flagStr a "format" "--format" ++
  boolFlag a "recursive" "--recursive" ++ flagStr a "glob" "--glob" ++
  flagStr a "max_tokens" "--max-tokens"

/-- Embedding of `_build_deps_args`. -/
def buildDepsArgs (a : ArgMap) : List String :=
  posStr a "manifest" ++ flagStr a "type" "--type" ++ boolFlag a "json" "--json"

/-- Embedding of `_build_git_context_args`. -/
def buildGitContextArgs (a : ArgMap) : List String :=
  flagStr a "path" "--path" ++ boolFlag a "include_diff" "--include-diff" ++
  flagStr a "since" "--since" ++ flagStr a "max_commits" "--max-commits" ++
  boolFlag a "json" "--json"

/-- Tokens for the `path = args.get("path") or args.get("plan_path")`
selection of `_build_validate_plan_args`: the first of the two values
whose Python truthiness picks it, emitted only when itself truthy. -/
def validatePlanPathSeg (a : ArgMap) : List String :=
  let pv : Option Value :=
    match amLookup a "path" with
    | some v => if v.truthy then some v else amLookup a "plan_path"
    | none => amLookup a "plan_path"
  match pv with
  | some v => if v.truthy then ["--path", v.pyStr] else []
  | none => []

/-- Embedding of `_build_validate_plan_args`. -/
def buildValidatePlanArgs (a : ArgMap) : List String :=
  validatePlanPathSeg a ++ boolFlag a "json" "--json"

/-- Embedding of `_build_partition_work_args`. -/
def buildPartitionWorkArgs (a : ArgMap) : List String :=
  flagStr a "stories" "--stories" ++ flagStr a "tasks" "--tasks" ++
  boolFlag a "verbose" "--verbose" ++ boolFlag a "json" "--json"

/-- Embedding of `_build_repo_root_args`. -/
def buildRepoRootArgs (a : ArgMap) : List String :=
  flagStr a "path" "--path" ++ boolFlag a "validate" "--validate"

/- Argument builders of src/mcp/llm-clarification-mcp.py. -/

/-- Embedding of `_build_match_args`. -/
def buildMatchArgs (a : ArgMap) : List String :=
  flagStr a "question" "--question" ++ flagStr a "entries_file" "--entries-file" ++
  flagStr a "entries_json" "--entries-json" ++ flagStr a "timeout" "--timeout"

/-- Embedding of `_build_cluster_args`. -/
def buildClusterArgs (a : ArgMap) : List String :=
  flagStr a "questions_file" "--questions-file" ++
  flagStr a "questions_json" "--questions-json" ++ flagStr a "timeout" "--timeout"

/-- Embedding of `_build_detect_conflicts_args`. -/
def buildDetectConflictsArgs (a : ArgMap) : List String :=
  posStr a "tracking_file" ++ flagStr a "timeout" "--timeout"

/-- Embedding of `_build_validate_args`. -/
def buildValidateArgs (a : ArgMap) : List String :=
  posStr a "tracking_file" ++ flagStr a "context" "--context" ++
  flagStr a "timeout" "--timeout"

/-- Embedding of `_build_init_args`. -/
def buildInitArgs (a : ArgMap) : List String :=
  flagStr a "output" "--output" ++ boolFlag a "force" "--force"

/-- Embedding of `_build_add_args`. -/
def buildAddArgs (a : ArgMap) : List String :=
  flagStr a "tracking_file" "--tracking-file" ++ flagStr a "question" "--question" ++
  flagStr a "answer" "--answer" ++ flagStr a "id" "--id" ++
  flagStr a "sprint_id" "--sprint-id" ++ flagStr a "context_tags" "--context-tags" ++
  boolFlag a "check_match" "--check-match"

/-- Embedding of `_build_promote_args`. -/
def buildPromoteArgs (a : ArgMap) : List String :=
  flagStr a "tracking_file" "--tracking-file" ++ flagStr a "id" "--id" ++
  flagStr a "target" "--target" ++ boolFlag a "force" "--force"

/-- Embedding of `_build_list_args`. -/
def buildListArgs (a : ArgMap) : List String :=
  posStr a "tracking_file" ++ flagStr a "status" "--status" ++
  flagStr a "min_occurrences" "--min-occurrences" ++
  boolFlag a "json_output" "--json"

/- Name handling, backend choice, and the dispatch handlers. -/

/-- Python `name.startswith(p)`: the prefix-of test on the character
sequences underlying the two strings. -/
def hasPre (s p : String) : Bool :=
  p.data.isPrefixOf s.data

/-- Python `name[len(p):] if name.startswith(p) else name`, the name
normalization done at the top of both `call_tool` handlers. -/
def stripPre (s p : String) : String :=
  if hasPre s p then String.mk (s.data.drop p.data.length) else s

/-- Tool-name marker of the project-analysis server (`PREFIX` in
llm-support-mcp.py). -/
def supportPre : String := "llm_support_"

/-- Tool-name marker of the tracking/learning server (`PREFIX` in
llm-clarification-mcp.py). -/
def clarifyPre : String := "llm_clarify_"

/-- Well-known path of the native Go backend (`BINARY_PATH`). -/
def BINARY_PATH : String := "/usr/local/bin/llm-support"

/-- Stand-in token for `sys.executable`, the Python interpreter that
launches a fallback script. -/
def pythonExe : String := "sys.executable"

/-- Stand-in token for `str(SCRIPT_PATH)` of llm-support-mcp.py, the
fallback script `llm-support.py` adjacent to the dispatcher. -/
def supportScript : String := "llm-support.py"

/-- Stand-in token for `str(SCRIPT_PATH)` of llm-clarification-mcp.py,
the script `llm-clarification.py` adjacent to the dispatcher. -/
def clarScript : String := "llm-clarification.py"

/-- The filesystem state observable by the dispatch layer: whether the
native binary exists at `BINARY_PATH`, and whether the fallback script
exists at its adjacent path. -/
structure FS where
  binaryExists : Bool
  scriptExists : Bool
deriving DecidableEq

/-- The leading tokens of every compiled project-analysis command, per
the `Path(BINARY_PATH).exists()` probe done inside `call_tool` on each
call: the native binary when present, otherwise the Python fallback.
The fallback is chosen without checking that the script exists. -/
def backendBase (fs : FS) : List String :=
  if fs.binaryExists then [BINARY_PATH] else [pythonExe, supportScript]

/-- An ASCII single-quote character, used in the unknown-tool message. -/
def quoteMark : String := String.singleton (Char.ofNat 39)

/-- The `ERROR: Unknown tool ...` payload, built from the original
(unstripped) tool name as in the source. -/
def unknownToolMsg (name : String) : String :=
  "ERROR: Unknown tool " ++ quoteMark ++ name ++ quoteMark

/-- Routing table of llm-support-mcp.py's `call_tool`: the `elif`
chain mapping a stripped command name to the CLI tokens appended after
the resolved backend path. -/
def supportRoute (c : String) : Option (ArgMap → List String) :=
  if c = "tree" then some (fun a => ["tree"] ++ buildTreeArgs a) else
  if c = "grep" then some (fun a => ["grep"] ++ buildGrepArgs a) else
  if c = "multiexists" then some (fun a => ["multiexists"] ++ buildMultiexistsArgs a) else
  if c = "json_query" then some (fun a => ["json", "query"] ++ buildJsonQueryArgs a) else
  if c = "markdown_headers" then some (fun a => ["markdown", "headers"] ++ buildMarkdownHeadersArgs a) else
  if c = "template" then some (fun a => ["template"] ++ buildTemplateArgs a) else
  if c = "discover_tests" then some (fun a => ["discover-tests"] ++ buildDiscoverTestsArgs a) else
  if c = "multigrep" then some (fun a => ["multigrep"] ++ buildMultigrepArgs a) else
  if c = "analyze_deps" then some (fun a => ["analyze-deps"] ++ buildAnalyzeDepsArgs a) else
  if c = "detect" then some (fun a => ["detect"] ++ buildDetectArgs a) else
  if c = "count" then some (fun a => ["count"] ++ buildCountArgs a) else
  if c = "summarize_dir" then some (fun a => ["summarize-dir"] ++ buildSummarizeDirArgs a) else
  if c = "deps" then some (fun a => ["deps"] ++ buildDepsArgs a) else
  if c = "git_context" then some (fun a => ["git-context"] ++ buildGitContextArgs a) else
  if c = "validate_plan" then some (fun a => ["validate-plan"] ++ buildValidatePlanArgs a) else
  if c = "partition_work" then some (fun a => ["partition-work"] ++ buildPartitionWorkArgs a) else
  if c = "repo_root" then some (fun a => ["repo-root"] ++ buildRepoRootArgs a) else
  none

/-- Routing table of llm-clarification-mcp.py's `call_tool`. -/
def clarRoute (c : String) : Option (ArgMap → List String) :=
  if c = "match" then some (fun a => ["match-clarification"] ++ buildMatchArgs a) else
  if c = "cluster" then some (fun a => ["cluster-clarifications"] ++ buildClusterArgs a) else
  if c = "detect_conflicts" then some (fun a => ["detect-conflicts"] ++ buildDetectConflictsArgs a) else
  if c = "validate" then some (fun a => ["validate-clarifications"] ++ buildValidateArgs a) else
  if c = "init" then some (fun a => ["init-tracking"] ++ buildInitArgs a) else
  if c = "add" then some (fun a => ["add-clarification"] ++ buildAddArgs a) else
  if c = "promote" then some (fun a => ["promote-clarification"] ++ buildPromoteArgs a) else
  if c = "list" then some (fun a => ["list-entries"] ++ buildListArgs a) else
  none

/-- What one `call_tool` invocation decides before any child process
runs: either an immediate textual reply, or a request to the Process
Executor carrying the compiled command and the timeout in seconds. -/
inductive DispatchAction where
  | reply (s : String)
  | execThen (cmd : List String) (timeoutSec : Nat)
deriving DecidableEq

/-- The pure part of llm-support-mcp.py's `call_tool`: strip the tool
name marker, re-probe the filesystem for the backend, compile the
arguments, and either request execution (timeout 60) or reply with the
unknown-tool error. -/
def supportDispatch (fs : FS) (name : String) (arguments : ArgMap) : DispatchAction :=
  match supportRoute (stripPre name supportPre) with
  | some f => .execThen (backendBase fs ++ f arguments) 60
  | none => .reply (unknownToolMsg name)

/-- The pure part of llm-clarification-mcp.py's `call_tool`: the
single script backend is used unconditionally and the timeout is 120. -/
def clarDispatch (name : String) (arguments : ArgMap) : DispatchAction :=
  match clarRoute (stripPre name clarifyPre) with
  | some f => .execThen ([pythonExe, clarScript] ++ f arguments) 120
  | none => .reply (unknownToolMsg name)

/-- Outcome of `subprocess.run(cmd, capture_output=True, text=True,
timeout=t)`: normal completion with exit code and captured channels,
`subprocess.TimeoutExpired`, or any other raised exception (spawn
failures such as `FileNotFoundError` included). -/
inductive ExecOutcome where
  | completed (exitCode : Int) (stdout stderr : String)
  | timedOut
  | raised (msg : String)
deriving DecidableEq

/-- A process-execution oracle: the outcome of running a given command
under a given timeout. -/
abbrev Oracle := List String → Nat → ExecOutcome

/-- Normalization of an execution outcome by llm-support-mcp.py:
stdout, with stderr appended after a separator when non-empty; the
fixed 60-second timeout message; `ERROR:` plus the exception text. -/
def finishSupport : ExecOutcome → String
  | .completed _ out err => out ++ (if err = "" then "" else "\n\nSTDERR:\n" ++ err)
  | .timedOut => "ERROR: Command timed out after 60 seconds"
  | .raised msg => "ERROR: " ++ msg

/-- Normalization of an execution outcome by llm-clarification-mcp.py,
with the 120-second timeout message. -/
def finishClar : ExecOutcome → String
  | .completed _ out err => out ++ (if err = "" then "" else "\n\nSTDERR:\n" ++ err)
  | .timedOut => "ERROR: Command timed out after 120 seconds"
  | .raised msg => "ERROR: " ++ msg

/-- A complete `call_tool` run of the support server: the list of
`TextContent` payloads returned to the caller (always one element). -/
def runSupportCall (fs : FS) (oracle : Oracle) (name : String) (arguments : ArgMap) :
    List String :=
  match supportDispatch fs name arguments with
  | .reply s => [s]
  | .execThen cmd t => [finishSupport (oracle cmd t)]

/-- A complete `call_tool` run of the clarification server. -/
def runClarCall (oracle : Oracle) (name : String) (arguments : ArgMap) :
    List String :=
  match clarDispatch name arguments with
  | .reply s => [s]
  | .execThen cmd t => [finishClar (oracle cmd t)]

/-- A sequence of calls served by one support-server process; each
call carries the filesystem state current at its own invocation, and
`call_tool` handles it independently of the other calls. -/
def supportSession (calls : List (FS × String × ArgMap)) : List DispatchAction :=
  calls.map fun c => supportDispatch c.1 c.2.1 c.2.2

/-- Whether llm-support-mcp.py's `main` proceeds to serve: it exits
up front when neither the native binary nor the fallback script
exists. -/
def mainStartsServer (fs : FS) : Bool :=
  fs.binaryExists || fs.scriptExists

/-- Substring occurrence, for statements about error-payload text. -/
def strContains (s sub : String) : Prop := sub.data <:+: s.data

instance (s sub : String) : Decidable (strContains s sub) := by
  unfold strContains; infer_instance

/-- Tag selecting one of the two MCP servers. -/
inductive SrvTag where
  | support
  | clarify
deriving DecidableEq

/-- The routing table of the tagged server. -/
def routeTokens : SrvTag → String → Option (ArgMap → List String)
  | .support, c => supportRoute c
  | .clarify, c => clarRoute c

/-- The CLI tokens (subcommand plus compiled arguments) produced for a
routed command name of the tagged server; `[]` for an unknown name. -/
def buildFor (t : SrvTag) (c : String) (a : ArgMap) : List String :=
  match routeTokens t c with
  | some f => f a
  | none => []

/-- Every boolean parameter declared in the two servers' tool schemas,
as (server, operation base name, parameter name, flag token emitted by
the corresponding argument builder). -/
def boolFlagTable : List (SrvTag × String × String × String) :=
  [(.support, "tree", "sizes", "--sizes"),
   (.support, "tree", "no_gitignore", "--no-gitignore"),
   (.support, "grep", "ignore_case", "-i"),
   (.support, "grep", "line_numbers", "-n"),
   (.support, "grep", "files_only", "-l"),
   (.support, "multiexists", "verbose", "--verbose"),
   (.support, "markdown_headers", "plain", "--plain"),
   (.support, "discover_tests", "json", "--json"),
   (.support, "multigrep", "ignore_case", "--ignore-case"),
   (.support, "multigrep", "definitions_only", "--definitions-only"),
   (.support, "multigrep", "json", "--json"),
   (.support, "analyze_deps", "json", "--json"),
   (.support, "detect", "json", "--json"),
   (.support, "count", "recursive", "--recursive"),
   (.support, "summarize_dir", "recursive", "--recursive"),
   (.support, "deps", "json", "--json"),
   (.support, "git_context", "include_diff", "--include-diff"),
   (.support, "git_context", "json", "--json"),
   (.support, "validate_plan", "json", "--json"),
   (.support, "partition_work", "verbose", "--verbose"),
   (.support, "partition_work", "json", "--json"),
   (.support, "repo_root", "validate", "--validate"),
   (.clarify, "init", "force", "--force"),
   (.clarify, "add", "check_match", "--check-match"),
   (.clarify, "promote", "force", "--force"),
   (.clarify, "list", "json_output", "--json")]

/-- An argument map is clean for (key, flagTok) when no entry other
than `key` stores a value able to contribute the token `flagTok` to a
compiled command; it separates the flag emitted for `key` from
look-alike tokens smuggled in through unrelated string values. -/
def CleanFor (a : ArgMap) (key flagTok : String) : Prop :=
  ∀ p ∈ a, p.1 = key ∨ flagTok ∉ Value.emits p.2

instance (a : ArgMap) (key flagTok : String) : Decidable (CleanFor a key flagTok) := by
  unfold CleanFor; infer_instance

/- Helper lemmas. -/

theorem amLookup_mem {a : ArgMap} {k : String} {v : Value}
    (h : amLookup a k = some v) : (k, v) ∈ a := by
  induction a with
  | nil => simp [amLookup] at h
  | cons p rest ih =>
    obtain ⟨pk, pv⟩ := p
    by_cases hk : pk = k
    · subst hk
      simp [amLookup] at h
      simp [h]
    · simp [amLookup, hk] at h
      exact List.mem_cons_of_mem _ (ih h)

theorem pyStr_mem_emits (v : Value) : v.pyStr ∈ v.emits := by
  cases v <;> simp [Value.pyStr, Value.emits]

theorem cleanFor_notMem_emits {a : ArgMap} {key flagTok k : String} {v : Value}
    (hc : CleanFor a key flagTok) (hk : ¬ k = key) (hv : amLookup a k = some v) :
    flagTok ∉ v.emits := by
  rcases hc (k, v) (amLookup_mem hv) with h | h
  · exact absurd h hk
  · exact h

theorem cleanFor_pyStr_ne {a : ArgMap} {key flagTok k : String} {v : Value}
    (hc : CleanFor a key flagTok) (hk : ¬ k = key) (hv : amLookup a k = some v) :
    ¬ flagTok = v.pyStr := by
  intro he
  exact cleanFor_notMem_emits hc hk hv (he ▸ pyStr_mem_emits v)

theorem count_posStr_zero (a : ArgMap) (key flagTok k : String)
    (hc : CleanFor a key flagTok) (hk : ¬ k = key) :
    (posStr a k).count flagTok = 0 := by
  unfold posStr
  cases hv : amLookup a k with
  | none => rfl
  | some v =>
    have := cleanFor_pyStr_ne hc hk hv
    simp [List.count_eq_zero, this]

theorem count_posList_zero (a : ArgMap) (key flagTok k : String)
    (hc : CleanFor a key flagTok) (hk : ¬ k = key) :
    (posList a k).count flagTok = 0 := by
  unfold posList
  cases hv : amLookup a k with
  | none => rfl
  | some v =>
    have hne := cleanFor_notMem_emits hc hk hv
    refine List.count_eq_zero.mpr (fun hmem => hne ?_)
    cases v <;> simp_all [Value.emits, Value.pyStr]

theorem count_flagStr_zero (a : ArgMap) (key flagTok k fname : String)
    (hc : CleanFor a key flagTok) (hk : ¬ k = key) (hf : ¬ flagTok = fname) :
    (flagStr a k fname).count flagTok = 0 := by
  unfold flagStr
  cases hv : amLookup a k with
  | none => rfl
  | some v =>
    have := cleanFor_pyStr_ne hc hk hv
    simp [List.count_eq_zero, this, hf]

theorem count_boolFlag_ne (a : ArgMap) (flagTok k fname : String)
    (hf : ¬ flagTok = fname) : (boolFlag a k fname).count flagTok = 0 := by
  unfold boolFlag
  by_cases ht : truthyAt a k <;> simp [ht, List.count_eq_zero, hf]

theorem count_boolFlag_none (a : ArgMap) (k flagTok : String)
    (h : amLookup a k = none) : (boolFlag a k flagTok).count flagTok = 0 := by
  simp [boolFlag, truthyAt, h]

theorem count_boolFlag_false (a : ArgMap) (k flagTok : String)
    (h : amLookup a k = some (Value.vBool false)) :
    (boolFlag a k flagTok).count flagTok = 0 := by
  simp [boolFlag, truthyAt, h, Value.truthy]

theorem count_boolFlag_true (a : ArgMap) (k flagTok : String)
    (h : amLookup a k = some (Value.vBool true)) :
    (boolFlag a k flagTok).count flagTok = 1 := by
  simp [boolFlag, truthyAt, h, Value.truthy]

theorem count_vplanSeg_zero (a : ArgMap) (key flagTok : String)
    (hc : CleanFor a key flagTok) (h1 : ¬ "path" = key) (h2 : ¬ "plan_path" = key)
    (hf : ¬ flagTok = "--path") :
    (validatePlanPathSeg a).count flagTok = 0 := by
  unfold validatePlanPathSeg
  cases hp : amLookup a "path" with
  | none =>
    cases hq : amLookup a "plan_path" with
    | none => rfl
    | some v =>
      have := cleanFor_pyStr_ne hc h2 hq
      by_cases ht : v.truthy <;> simp [ht, List.count_eq_zero, hf, this]
  | some v =>
    by_cases ht : v.truthy
    · have := cleanFor_pyStr_ne hc h1 hp
      simp [ht, List.count_eq_zero, hf, this]
    · cases hq : amLookup a "plan_path" with
      | none => simp [ht]
      | some w =>
        have := cleanFor_pyStr_ne hc h2 hq
        by_cases hw : w.truthy <;> simp [ht, hw, List.count_eq_zero, hf, this]

theorem stripPre_append (p t : String) : stripPre (p ++ t) p = t := by
  have hd : (p ++ t).data = p.data ++ t.data := by cases p; cases t; rfl
  have h1 : p.data.isPrefixOf (p.data ++ t.data) = true := by
    rw [List.isPrefixOf_iff_prefix]
    exact List.prefix_append _ _
  unfold stripPre hasPre
  rw [hd, h1]
  simp [List.drop_left]

theorem stripPre_of_no (t p : String) (h : hasPre t p = false) : stripPre t p = t := by
  unfold stripPre
  rw [h]
  simp

/- Claim theorems. -/

/-- C1 counterexample: with neither the native binary nor the fallback
script present, a project-analysis call does not reply with a
`NoBackendAvailable` error and the Process Executor is not skipped:
`call_tool` selects the fallback command anyway and hands it to
`subprocess.run`; the spawn failure raised there is normalized to
`ERROR:` plus the OS message, which never mentions
`NoBackendAvailable`. -/
theorem C1_counterexample :
    supportDispatch ⟨false, false⟩ "llm_support_tree" [] =
      DispatchAction.execThen [pythonExe, supportScript, "tree"] 60 ∧
    runSupportCall ⟨false, false⟩
      (fun _ _ => ExecOutcome.raised "[Errno 2] No such file or directory")
      "llm_support_tree" [] =
      ["ERROR: [Errno 2] No such file or directory"] ∧
    ¬ strContains
      (finishSupport (ExecOutcome.raised "[Errno 2] No such file or directory"))
      "NoBackendAvailable" :=
  ⟨by decide, by decide, by decide⟩

/-- C1 (amended): backend resolution for a known project-analysis
operation selects the native binary exactly when it exists and
otherwise the fallback script, without checking the fallback's
existence; the call always proceeds to the Process Executor, a raised
spawn failure is normalized to an `ERROR:` payload, and only `main`
(at startup) refuses to serve when neither backend exists. -/
theorem C1_backend_resolution (fs : FS) (name : String) (a : ArgMap)
    (f : ArgMap → List String)
    (hroute : supportRoute (stripPre name supportPre) = some f) :
    supportDispatch fs name a = DispatchAction.execThen (backendBase fs ++ f a) 60 ∧
    (fs.binaryExists = true → backendBase fs = [BINARY_PATH]) ∧
    (fs.binaryExists = false → backendBase fs = [pythonExe, supportScript]) ∧
    (∀ msg, runSupportCall fs (fun _ _ => ExecOutcome.raised msg) name a =
      ["ERROR: " ++ msg]) ∧
    (fs.binaryExists = false → fs.scriptExists = false →
      mainStartsServer fs = false) := by
  have hd : supportDispatch fs name a =
      DispatchAction.execThen (backendBase fs ++ f a) 60 := by
    unfold supportDispatch
    rw [hroute]
  refine ⟨hd, ?_, ?_, ?_, ?_⟩
  · intro h; simp [backendBase, h]
  · intro h; simp [backendBase, h]
  · intro msg
    unfold runSupportCall
    rw [hd]
    rfl
  · intro h1 h2; simp [mainStartsServer, h1, h2]

/-- C1 witness: the amended resolution theorem applied to a concrete
filesystem with neither backend present and the grep operation. -/
theorem C1_witness :
    supportDispatch ⟨false, false⟩ "llm_support_grep" [] =
      DispatchAction.execThen [pythonExe, supportScript, "grep"] 60 :=
  (C1_backend_resolution ⟨false, false⟩ "llm_support_grep" [] _ rfl).1

/-- C2 counterexample: dispatching grep with an empty argument map —
both required parameters `pattern` and `paths` missing — does not fail
with any `InvalidArgument` error; the compiled command is handed to
the Process Executor. -/
theorem C2_counterexample :
    supportDispatch ⟨true, true⟩ "llm_support_grep" [] =
      DispatchAction.execThen [BINARY_PATH, "grep"] 60 := by decide

/-- C2 (amended): no required-parameter validation exists at
compilation time: for every registered operation of either server and
every parameter its schema declares required, an argument map omitting
that parameter still compiles — the omitted parameter contributes no
tokens to the command — and the Process Executor is invoked with the
resulting command; the conjuncts enumerate all 24 (operation, required
parameter) pairs of the two schemas. -/
theorem C2_missing_required_params :
    -- grep, required `pattern` omitted
    (∀ (fs : FS) (a : ArgMap), amLookup a "pattern" = none →
      supportDispatch fs "llm_support_grep" a =
        DispatchAction.execThen (backendBase fs ++ ["grep"] ++
          (posList a "paths" ++ boolFlag a "ignore_case" "-i" ++
           boolFlag a "line_numbers" "-n" ++ boolFlag a "files_only" "-l")) 60) ∧
    -- grep, required `paths` omitted
    (∀ (fs : FS) (a : ArgMap), amLookup a "paths" = none →
      supportDispatch fs "llm_support_grep" a =
        DispatchAction.execThen (backendBase fs ++ ["grep"] ++
          (posStr a "pattern" ++ boolFlag a "ignore_case" "-i" ++
           boolFlag a "line_numbers" "-n" ++ boolFlag a "files_only" "-l")) 60) ∧
    -- multiexists, required `paths` omitted
    (∀ (fs : FS) (a : ArgMap), amLookup a "paths" = none →
      supportDispatch fs "llm_support_multiexists" a =
        DispatchAction.execThen (backendBase fs ++ ["multiexists"] ++
          (boolFlag a "verbose" "--verbose" ++ ["--no-fail"])) 60) ∧
    -- json_query, required `file` omitted
    (∀ (fs : FS) (a : ArgMap), amLookup a "file" = none →
      supportDispatch fs "llm_support_json_query" a =
        DispatchAction.execThen (backendBase fs ++ ["json", "query"] ++
          posStr a "query") 60) ∧
    -- json_query, required `query` omitted
    (∀ (fs : FS) (a : ArgMap), amLookup a "query" = none →
      supportDispatch fs "llm_support_json_query" a =
        DispatchAction.execThen (backendBase fs ++ ["json", "query"] ++
          posStr a "file") 60) ∧
    -- markdown_headers, required `file` omitted
    (∀ (fs : FS) (a : ArgMap), amLookup a "file" = none →
      supportDispatch fs "llm_support_markdown_headers" a =
        DispatchAction.execThen (backendBase fs ++ ["markdown", "headers"] ++
          (flagStr a "level" "--level" ++ boolFlag a "plain" "--plain")) 60) ∧
    -- template, required `file` omitted
    (∀ (fs : FS) (a : ArgMap), amLookup a "file" = none →
      supportDispatch fs "llm_support_template" a =
        DispatchAction.execThen (backendBase fs ++ ["template"] ++
          ((match amLookup a "vars" with
            | some (Value.vMap kvs) => varTokens kvs
            | some _ => []
            | none => []) ++ flagStr a "syntax" "--syntax")) 60) ∧
    -- multigrep, required `keywords` omitted
    (∀ (fs : FS) (a : ArgMap), amLookup a "keywords" = none →
      supportDispatch fs "llm_support_multigrep" a =
        DispatchAction.execThen (backendBase fs ++ ["multigrep"] ++
          (flagStr a "path" "--path" ++ flagStr a "extensions" "--extensions" ++
           flagStr a "max_per_keyword" "--max-per-keyword" ++
           boolFlag a "ignore_case" "--ignore-case" ++
           boolFlag a "definitions_only" "--definitions-only" ++
           boolFlag a "json" "--json" ++ flagStr a "output_dir" "--output-dir")) 60) ∧
    -- analyze_deps, required `file` omitted
    (∀ (fs : FS) (a : ArgMap), amLookup a "file" = none →
      supportDispatch fs "llm_support_analyze_deps" a =
        DispatchAction.execThen (backendBase fs ++ ["analyze-deps"] ++
          boolFlag a "json" "--json") 60) ∧
    -- count, required `mode` omitted
    (∀ (fs : FS) (a : ArgMap), amLookup a "mode" = none →
      supportDispatch fs "llm_support_count" a =
        DispatchAction.execThen (backendBase fs ++ ["count"] ++
          (posStr a "target" ++ boolFlag a "recursive" "--recursive" ++
           flagStr a "pattern" "--pattern")) 60) ∧
    -- count, required `target` omitted
    (∀ (fs : FS) (a : ArgMap), amLookup a "target" = none →
      supportDispatch fs "llm_support_count" a =
        DispatchAction.execThen (backendBase fs ++ ["count"] ++
          (flagStr a "mode" "--mode" ++ boolFlag a "recursive" "--recursive" ++
           flagStr a "pattern" "--pattern")) 60) ∧
    -- summarize_dir, required `path` omitted
    (∀ (fs : FS) (a : ArgMap), amLookup a "path" = none →
      supportDispatch fs "llm_support_summarize_dir" a =
        DispatchAction.execThen (backendBase fs ++ ["summarize-dir"] ++
          (flagStr a "format" "--format" ++ boolFlag a "recursive" "--recursive" ++
           flagStr a "glob" "--glob" ++ flagStr a "max_tokens" "--max-tokens")) 60) ∧
    -- deps, required `manifest` omitted
    (∀ (fs : FS) (a : ArgMap), amLookup a "manifest" = none →
      supportDispatch fs "llm_support_deps" a =
        DispatchAction.execThen (backendBase fs ++ ["deps"] ++
          (flagStr a "type" "--type" ++ boolFlag a "json" "--json")) 60) ∧
    -- validate_plan, required `path` omitted (the legacy `plan_path`
    -- alias may still supply the flag, exactly as in the source)
    (∀ (fs : FS) (a : ArgMap), amLookup a "path" = none →
      supportDispatch fs "llm_support_validate_plan" a =
        DispatchAction.execThen (backendBase fs ++ ["validate-plan"] ++
          ((match amLookup a "plan_path" with
            | some v => if v.truthy then ["--path", v.pyStr] else []
            | none => []) ++ boolFlag a "json" "--json")) 60) ∧
    -- clarify match, required `question` omitted
    (∀ (a : ArgMap), amLookup a "question" = none →
      clarDispatch "llm_clarify_match" a =
        DispatchAction.execThen ([pythonExe, clarScript] ++ ["match-clarification"] ++
          (flagStr a "entries_file" "--entries-file" ++
           flagStr a "entries_json" "--entries-json" ++
           flagStr a "timeout" "--timeout")) 120) ∧
    -- clarify detect_conflicts, required `tracking_file` omitted
    (∀ (a : ArgMap), amLookup a "tracking_file" = none →
      clarDispatch "llm_clarify_detect_conflicts" a =
        DispatchAction.execThen ([pythonExe, clarScript] ++ ["detect-conflicts"] ++
          flagStr a "timeout" "--timeout") 120) ∧
    -- clarify validate, required `tracking_file` omitted
    (∀ (a : ArgMap), amLookup a "tracking_file" = none →
      clarDispatch "llm_clarify_validate" a =
        DispatchAction.execThen ([pythonExe, clarScript] ++ ["validate-clarifications"] ++
          (flagStr a "context" "--context" ++ flagStr a "timeout" "--timeout")) 120) ∧
    -- clarify init, required `output` omitted
    (∀ (a : ArgMap), amLookup a "output" = none →
      clarDispatch "llm_clarify_init" a =
        DispatchAction.execThen ([pythonExe, clarScript] ++ ["init-tracking"] ++
          boolFlag a "force" "--force") 120) ∧
    -- clarify add, required `tracking_file` omitted
    (∀ (a : ArgMap), amLookup a "tracking_file" = none →
      clarDispatch "llm_clarify_add" a =
        DispatchAction.execThen ([pythonExe, clarScript] ++ ["add-clarification"] ++
          (flagStr a "question" "--question" ++ flagStr a "answer" "--answer" ++
           flagStr a "id" "--id" ++ flagStr a "sprint_id" "--sprint-id" ++
           flagStr a "context_tags" "--context-tags" ++
           boolFlag a "check_match" "--check-match")) 120) ∧
    -- clarify add, required `question` omitted
    (∀ (a : ArgMap), amLookup a "question" = none →
      clarDispatch "llm_clarify_add" a =
        DispatchAction.execThen ([pythonExe, clarScript] ++ ["add-clarification"] ++
          (flagStr a "tracking_file" "--tracking-file" ++ flagStr a "answer" "--answer" ++
           flagStr a "id" "--id" ++ flagStr a "sprint_id" "--sprint-id" ++
           flagStr a "context_tags" "--context-tags" ++
           boolFlag a "check_match" "--check-match")) 120) ∧
    -- clarify promote, required `tracking_file` omitted
    (∀ (a : ArgMap), amLookup a "tracking_file" = none →
      clarDispatch "llm_clarify_promote" a =
        DispatchAction.execThen ([pythonExe, clarScript] ++ ["promote-clarification"] ++
          (flagStr a "id" "--id" ++ flagStr a "target" "--target" ++
           boolFlag a "force" "--force")) 120) ∧
    -- clarify promote, required `id` omitted
    (∀ (a : ArgMap), amLookup a "id" = none →
      clarDispatch "llm_clarify_promote" a =
        DispatchAction.execThen ([pythonExe, clarScript] ++ ["promote-clarification"] ++
          (flagStr a "tracking_file" "--tracking-file" ++ flagStr a "target" "--target" ++
           boolFlag a "force" "--force")) 120) ∧
    -- clarify promote, required `target` omitted
    (∀ (a : ArgMap), amLookup a "target" = none →
      clarDispatch "llm_clarify_promote" a =
        DispatchAction.execThen ([pythonExe, clarScript] ++ ["promote-clarification"] ++
          (flagStr a "tracking_file" "--tracking-file" ++ flagStr a "id" "--id" ++
           boolFlag a "force" "--force")) 120) ∧
    -- clarify list, required `tracking_file` omitted
    (∀ (a : ArgMap), amLookup a "tracking_file" = none →
      clarDispatch "llm_clarify_list" a =
        DispatchAction.execThen ([pythonExe, clarScript] ++ ["list-entries"] ++
          (flagStr a "status" "--status" ++
           flagStr a "min_occurrences" "--min-occurrences" ++
           boolFlag a "json_output" "--json")) 120) := by
  refine ⟨?_, ?_, ?_, ?_, ?_, ?_, ?_, ?_, ?_, ?_, ?_, ?_, ?_, ?_, ?_, ?_, ?_, ?_, ?_, ?_,
    ?_, ?_, ?_, ?_⟩
  · intro fs a h
    have hd : supportDispatch fs "llm_support_grep" a =
        DispatchAction.execThen (backendBase fs ++ (["grep"] ++ buildGrepArgs a)) 60 := rfl
    rw [hd]
    simp [buildGrepArgs, posStr, h, List.append_assoc]
  · intro fs a h
    have hd : supportDispatch fs "llm_support_grep" a =
        DispatchAction.execThen (backendBase fs ++ (["grep"] ++ buildGrepArgs a)) 60 := rfl
    rw [hd]
    simp [buildGrepArgs, posList, h, List.append_assoc]
  · intro fs a h
    have hd : supportDispatch fs "llm_support_multiexists" a =
        DispatchAction.execThen
          (backendBase fs ++ (["multiexists"] ++ buildMultiexistsArgs a)) 60 := rfl
    rw [hd]
    simp [buildMultiexistsArgs, posList, h, List.append_assoc]
  · intro fs a h
    have hd : supportDispatch fs "llm_support_json_query" a =
        DispatchAction.execThen
          (backendBase fs ++ (["json", "query"] ++ buildJsonQueryArgs a)) 60 := rfl
    rw [hd]
    simp [buildJsonQueryArgs, posStr, h, List.append_assoc]
  · intro fs a h
    have hd : supportDispatch fs "llm_support_json_query" a =
        DispatchAction.execThen
          (backendBase fs ++ (["json", "query"] ++ buildJsonQueryArgs a)) 60 := rfl
    rw [hd]
    simp [buildJsonQueryArgs, posStr, h, List.append_assoc]
  · intro fs a h
    have hd : supportDispatch fs "llm_support_markdown_headers" a =
        DispatchAction.execThen
          (backendBase fs ++ (["markdown", "headers"] ++ buildMarkdownHeadersArgs a))
          60 := rfl
    rw [hd]
    simp [buildMarkdownHeadersArgs, posStr, h, List.append_assoc]
  · intro fs a h
    have hd : supportDispatch fs "llm_support_template" a =
        DispatchAction.execThen
          (backendBase fs ++ (["template"] ++ buildTemplateArgs a)) 60 := rfl
    rw [hd]
    simp [buildTemplateArgs, posStr, h, List.append_assoc]
  · intro fs a h
    have hd : supportDispatch fs "llm_support_multigrep" a =
        DispatchAction.execThen
          (backendBase fs ++ (["multigrep"] ++ buildMultigrepArgs a)) 60 := rfl
    rw [hd]
    simp [buildMultigrepArgs, flagStr, h, List.append_assoc]
  · intro fs a h
    have hd : supportDispatch fs "llm_support_analyze_deps" a =
        DispatchAction.execThen
          (backendBase fs ++ (["analyze-deps"] ++ buildAnalyzeDepsArgs a)) 60 := rfl
    rw [hd]
    simp [buildAnalyzeDepsArgs, posStr, h, List.append_assoc]
  · intro fs a h
    have hd : supportDispatch fs "llm_support_count" a =
        DispatchAction.execThen (backendBase fs ++ (["count"] ++ buildCountArgs a)) 60 := rfl
    rw [hd]
    simp [buildCountArgs, flagStr, h, List.append_assoc]
  · intro fs a h
    have hd : supportDispatch fs "llm_support_count" a =
        DispatchAction.execThen (backendBase fs ++ (["count"] ++ buildCountArgs a)) 60 := rfl
    rw [hd]
    simp [buildCountArgs, posStr, h, List.append_assoc]
  · intro fs a h
    have hd : supportDispatch fs "llm_support_summarize_dir" a =
        DispatchAction.execThen
          (backendBase fs ++ (["summarize-dir"] ++ buildSummarizeDirArgs a)) 60 := rfl
    rw [hd]
    simp [buildSummarizeDirArgs, flagStr, h, List.append_assoc]
  · intro fs a h
    have hd : supportDispatch fs "llm_support_deps" a =
        DispatchAction.execThen (backendBase fs ++ (["deps"] ++ buildDepsArgs a)) 60 := rfl
    rw [hd]
    simp [buildDepsArgs, posStr, h, List.append_assoc]
  · intro fs a h
    have hd : supportDispatch fs "llm_support_validate_plan" a =
        DispatchAction.execThen
          (backendBase fs ++ (["validate-plan"] ++ buildValidatePlanArgs a)) 60 := rfl
    rw [hd]
    simp [buildValidatePlanArgs, validatePlanPathSeg, h, List.append_assoc]
  · intro a h
    have hd : clarDispatch "llm_clarify_match" a =
        DispatchAction.execThen
          ([pythonExe, clarScript] ++ (["match-clarification"] ++ buildMatchArgs a))
          120 := rfl
    rw [hd]
    simp [buildMatchArgs, flagStr, h, List.append_assoc]
  · intro a h
    have hd : clarDispatch "llm_clarify_detect_conflicts" a =
        DispatchAction.execThen
          ([pythonExe, clarScript] ++ (["detect-conflicts"] ++ buildDetectConflictsArgs a))
          120 := rfl
    rw [hd]
    simp [buildDetectConflictsArgs, posStr, h, List.append_assoc]
  · intro a h
    have hd : clarDispatch "llm_clarify_validate" a =
        DispatchAction.execThen
          ([pythonExe, clarScript] ++ (["validate-clarifications"] ++ buildValidateArgs a))
          120 := rfl
    rw [hd]
    simp [buildValidateArgs, posStr, h, List.append_assoc]
  · intro a h
    have hd : clarDispatch "llm_clarify_init" a =
        DispatchAction.execThen
          ([pythonExe, clarScript] ++ (["init-tracking"] ++ buildInitArgs a)) 120 := rfl
    rw [hd]
    simp [buildInitArgs, flagStr, h, List.append_assoc]
  · intro a h
    have hd : clarDispatch "llm_clarify_add" a =
        DispatchAction.execThen
          ([pythonExe, clarScript] ++ (["add-clarification"] ++ buildAddArgs a)) 120 := rfl
    rw [hd]
    simp [buildAddArgs, flagStr, h, List.append_assoc]
  · intro a h
    have hd : clarDispatch "llm_clarify_add" a =
        DispatchAction.execThen
          ([pythonExe, clarScript] ++ (["add-clarification"] ++ buildAddArgs a)) 120 := rfl
    rw [hd]
    simp [buildAddArgs, flagStr, h, List.append_assoc]
  · intro a h
    have hd : clarDispatch "llm_clarify_promote" a =
        DispatchAction.execThen
          ([pythonExe, clarScript] ++ (["promote-clarification"] ++ buildPromoteArgs a))
          120 := rfl
    rw [hd]
    simp [buildPromoteArgs, flagStr, h, List.append_assoc]
  · intro a h
    have hd : clarDispatch "llm_clarify_promote" a =
        DispatchAction.execThen
          ([pythonExe, clarScript] ++ (["promote-clarification"] ++ buildPromoteArgs a))
          120 := rfl
    rw [hd]
    simp [buildPromoteArgs, flagStr, h, List.append_assoc]
  · intro a h
    have hd : clarDispatch "llm_clarify_promote" a =
        DispatchAction.execThen
          ([pythonExe, clarScript] ++ (["promote-clarification"] ++ buildPromoteArgs a))
          120 := rfl
    rw [hd]
    simp [buildPromoteArgs, flagStr, h, List.append_assoc]
  · intro a h
    have hd : clarDispatch "llm_clarify_list" a =
        DispatchAction.execThen
          ([pythonExe, clarScript] ++ (["list-entries"] ++ buildListArgs a)) 120 := rfl
    rw [hd]
    simp [buildListArgs, posStr, h, List.append_assoc]

/-- C2 witness: the amended theorem's first conjunct applied to a
concrete map supplying paths and ignore_case but omitting the required
pattern parameter: dispatch still hands a command to the executor. -/
theorem C2_witness :
    supportDispatch ⟨true, true⟩ "llm_support_grep"
      [("paths", Value.vList ["src"]), ("ignore_case", Value.vBool true)] =
      DispatchAction.execThen [BINARY_PATH, "grep", "src", "-i"] 60 :=
  C2_missing_required_params.1 ⟨true, true⟩
    [("paths", Value.vList ["src"]), ("ignore_case", Value.vBool true)] rfl

/-- C3: for every operation name, argument map, and execution outcome
(completion, timeout, or any raised exception), both `call_tool`
handlers return normally with exactly one textual payload; no input
makes the handler propagate a failure past the call boundary. -/
theorem C3_call_boundary_total :
    (∀ (fs : FS) (oracle : Oracle) (name : String) (a : ArgMap),
        (runSupportCall fs oracle name a).length = 1) ∧
    (∀ (oracle : Oracle) (name : String) (a : ArgMap),
        (runClarCall oracle name a).length = 1) := by
  constructor
  · intro fs oracle name a
    unfold runSupportCall
    cases supportDispatch fs name a <;> rfl
  · intro oracle name a
    unfold runClarCall
    cases clarDispatch name a <;> rfl

/-- C3 witness: a concrete call whose execution raises still yields a
single payload. -/
theorem C3_witness :
    (runSupportCall ⟨true, true⟩ (fun _ _ => ExecOutcome.raised "boom") "x" []).length = 1 :=
  C3_call_boundary_total.1 ⟨true, true⟩ (fun _ _ => ExecOutcome.raised "boom") "x" []

/-- C4: for every execution that completes, the normalized result is
the captured stdout when stderr is empty, and stdout followed by the
separator and stderr when stderr is non-empty; the right-hand side
never mentions the exit code, so a non-zero exit is not converted into
a dispatch-level error. -/
theorem C4_result_normalization :
    (∀ (fs : FS) (oracle : Oracle) (name : String) (a : ArgMap) (cmd : List String)
        (t : Nat) (ec : Int) (out err : String),
        supportDispatch fs name a = DispatchAction.execThen cmd t →
        oracle cmd t = ExecOutcome.completed ec out err →
        runSupportCall fs oracle name a =
          [out ++ (if err = "" then "" else "\n\nSTDERR:\n" ++ err)]) ∧
    (∀ (oracle : Oracle) (name : String) (a : ArgMap) (cmd : List String)
        (t : Nat) (ec : Int) (out err : String),
        clarDispatch name a = DispatchAction.execThen cmd t →
        oracle cmd t = ExecOutcome.completed ec out err →
        runClarCall oracle name a =
          [out ++ (if err = "" then "" else "\n\nSTDERR:\n" ++ err)]) := by
  constructor
  · intro fs oracle name a cmd t ec out err hd ho
    simp only [runSupportCall, hd, ho, finishSupport]
  · intro oracle name a cmd t ec out err hd ho
    simp only [runClarCall, hd, ho, finishClar]

/-- C4 witness: concrete completed executions for both servers, one
with non-empty stderr and exit code 3, one with empty stderr. -/
theorem C4_witness :
    runSupportCall ⟨true, true⟩ (fun _ _ => ExecOutcome.completed 3 "OUT" "E")
      "llm_support_tree" [] = ["OUT\n\nSTDERR:\nE"] ∧
    runClarCall (fun _ _ => ExecOutcome.completed 0 "OK" "") "llm_clarify_init" [] = ["OK"] :=
  ⟨(C4_result_normalization.1 ⟨true, true⟩ (fun _ _ => ExecOutcome.completed 3 "OUT" "E")
      "llm_support_tree" [] [BINARY_PATH, "tree"] 60 3 "OUT" "E" (by decide) rfl).trans
    (by decide),
   (C4_result_normalization.2 (fun _ _ => ExecOutcome.completed 0 "OK" "")
      "llm_clarify_init" [] [pythonExe, clarScript, "init-tracking"] 120 0 "OK" ""
      (by decide) rfl).trans (by decide)⟩

/-- C5: every project-analysis execution request carries the timeout
budget 60 and every tracking/learning request the budget 120; on a
timeout, each server returns the fixed payload naming its own
configured budget. -/
theorem C5_timeout_budgets :
    (∀ (fs : FS) (name : String) (a : ArgMap) (cmd : List String) (t : Nat),
        supportDispatch fs name a = DispatchAction.execThen cmd t → t = 60) ∧
    (∀ (name : String) (a : ArgMap) (cmd : List String) (t : Nat),
        clarDispatch name a = DispatchAction.execThen cmd t → t = 120) ∧
    (finishSupport ExecOutcome.timedOut = "ERROR: Command timed out after 60 seconds" ∧
      strContains (finishSupport ExecOutcome.timedOut) "60") ∧
    (finishClar ExecOutcome.timedOut = "ERROR: Command timed out after 120 seconds" ∧
      strContains (finishClar ExecOutcome.timedOut) "120") := by
  refine ⟨?_, ?_, ⟨rfl, by decide⟩, ⟨rfl, by decide⟩⟩
  · intro fs name a cmd t h
    unfold supportDispatch at h
    cases hr : supportRoute (stripPre name supportPre) <;> rw [hr] at h
    · simp at h
    · simp only [DispatchAction.execThen.injEq] at h
      exact h.2.symm
  · intro name a cmd t h
    unfold clarDispatch at h
    cases hr : clarRoute (stripPre name clarifyPre) <;> rw [hr] at h
    · simp at h
    · simp only [DispatchAction.execThen.injEq] at h
      exact h.2.symm

/-- C5 witness: the budget conjuncts applied to concrete dispatches of
each family. -/
theorem C5_witness : (60 : Nat) = 60 ∧ (120 : Nat) = 120 :=
  ⟨C5_timeout_budgets.1 ⟨true, true⟩ "llm_support_tree" [] [BINARY_PATH, "tree"] 60
    (by decide),
   C5_timeout_budgets.2.1 "llm_clarify_list" [] [pythonExe, clarScript, "list-entries"] 120
    (by decide)⟩

/-- C6 counterexample: two calls in one process, with the native
binary installed between them, use different backends — the second
call probes the filesystem again instead of reusing the backend
resolved by the first call. -/
theorem C6_counterexample :
    supportSession
      [(⟨false, true⟩, "llm_support_tree", []), (⟨true, true⟩, "llm_support_tree", [])] =
      [DispatchAction.execThen [pythonExe, supportScript, "tree"] 60,
       DispatchAction.execThen [BINARY_PATH, "tree"] 60] := by decide

/-- C6 (amended): the backend is re-resolved on every call by probing
the filesystem current at that call; a call's result depends on the
filesystem only through that probe of the native binary's path. -/
theorem C6_per_call_resolution (fs fs2 : FS) (name : String) (a : ArgMap)
    (h : fs.binaryExists = fs2.binaryExists) :
    supportDispatch fs name a = supportDispatch fs2 name a := by
  unfold supportDispatch backendBase
  rw [h]

/-- C6 witness: two filesystem states agreeing on the native binary
probe dispatch identically. -/
theorem C6_witness :
    supportDispatch ⟨true, false⟩ "llm_support_tree" [] =
      supportDispatch ⟨true, true⟩ "llm_support_tree" [] :=
  C6_per_call_resolution ⟨true, false⟩ ⟨true, true⟩ "llm_support_tree" [] rfl

/-- C7: the grep operation with pattern TODO, paths [src] and
ignore_case true compiles to exactly the tokens grep, TODO, src, -i
appended after the resolved backend path, whichever backend is
resolved. -/
theorem C7_grep_scenario (fs : FS) :
    supportDispatch fs "llm_support_grep"
      [("pattern", Value.vStr "TODO"), ("paths", Value.vList ["src"]),
       ("ignore_case", Value.vBool true)] =
      DispatchAction.execThen (backendBase fs ++ ["grep", "TODO", "src", "-i"]) 60 := by
  obtain ⟨b, s⟩ := fs
  cases b <;> cases s <;> decide

/-- C7 witness: the scenario theorem at the native-backend filesystem. -/
theorem C7_witness :
    supportDispatch ⟨true, true⟩ "llm_support_grep"
      [("pattern", Value.vStr "TODO"), ("paths", Value.vList ["src"]),
       ("ignore_case", Value.vBool true)] =
      DispatchAction.execThen [BINARY_PATH, "grep", "TODO", "src", "-i"] 60 :=
  C7_grep_scenario ⟨true, true⟩

/-- C9: for every registered tool base name (any name not itself
starting with the server's tool-name marker and known to the routing
table), dispatching under the marker-qualified name and under the bare
name produces the identical dispatch action, for both servers. -/
theorem C9_name_marker_equivalence :
    (∀ (t : String) (a : ArgMap) (fs : FS),
        hasPre t supportPre = false → (supportRoute t).isSome = true →
        supportDispatch fs (supportPre ++ t) a = supportDispatch fs t a) ∧
    (∀ (t : String) (a : ArgMap),
        hasPre t clarifyPre = false → (clarRoute t).isSome = true →
        clarDispatch (clarifyPre ++ t) a = clarDispatch t a) := by
  constructor
  · intro t a fs h hs
    unfold supportDispatch
    rw [stripPre_append, stripPre_of_no t supportPre h]
    cases hr : supportRoute t with
    | some f => rfl
    | none => rw [hr] at hs; simp at hs
  · intro t a h hs
    unfold clarDispatch
    rw [stripPre_append, stripPre_of_no t clarifyPre h]
    cases hr : clarRoute t with
    | some f => rfl
    | none => rw [hr] at hs; simp at hs

/-- C9 witness: prefixed and bare dispatch agree on concrete calls of
both servers. -/
theorem C9_witness :
    supportDispatch ⟨true, true⟩ (supportPre ++ "tree") [] =
      supportDispatch ⟨true, true⟩ "tree" [] ∧
    clarDispatch (clarifyPre ++ "list") [] = clarDispatch "list" [] :=
  ⟨C9_name_marker_equivalence.1 "tree" [] ⟨true, true⟩ (by decide) (by decide),
   C9_name_marker_equivalence.2 "list" [] (by decide) (by decide)⟩

theorem getLast?_append_of_last (l₁ l₂ : List String) (x : String)
    (h : l₂.getLast? = some x) : (l₁ ++ l₂).getLast? = some x := by
  have hne : l₂ ≠ [] := by
    intro he
    rw [he] at h
    simp at h
  rw [List.getLast?_append_of_ne_nil _ hne]
  exact h

/-- C10: for every argument map, the compiled multiexists command ends
with the fixed token `--no-fail`, both at the argument-builder level
and in the full command handed to the Process Executor. -/
theorem C10_multiexists_no_fail (a : ArgMap) :
    ((buildMultiexistsArgs a).getLast? = some "--no-fail") ∧
    (∀ (fs : FS) (cmd : List String) (t : Nat),
        supportDispatch fs "llm_support_multiexists" a = DispatchAction.execThen cmd t →
        cmd.getLast? = some "--no-fail") := by
  have hb : (buildMultiexistsArgs a).getLast? = some "--no-fail" := by
    unfold buildMultiexistsArgs
    exact List.getLast?_concat _
  refine ⟨hb, ?_⟩
  intro fs cmd t h
  have hd : supportDispatch fs "llm_support_multiexists" a =
      DispatchAction.execThen
        (backendBase fs ++ (["multiexists"] ++ buildMultiexistsArgs a)) 60 := rfl
  rw [hd] at h
  simp only [DispatchAction.execThen.injEq] at h
  rw [← h.1]
  exact getLast?_append_of_last _ _ _ (getLast?_append_of_last _ _ _ hb)

/-- C10 witness: the ending-token theorem at a concrete argument map
and at the concrete dispatched command. -/
theorem C10_witness :
    (buildMultiexistsArgs [("verbose", Value.vBool true)]).getLast? = some "--no-fail" ∧
    ([BINARY_PATH, "multiexists", "--verbose", "--no-fail"] : List String).getLast? =
      some "--no-fail" :=
  ⟨(C10_multiexists_no_fail [("verbose", Value.vBool true)]).1,
   (C10_multiexists_no_fail [("verbose", Value.vBool true)]).2 ⟨true, true⟩
     [BINARY_PATH, "multiexists", "--verbose", "--no-fail"] 60 (by decide)⟩

/-- C8: for every operation of either server and every boolean
parameter of its schema, an argument map in which that parameter is
absent or false yields a compiled command containing no occurrence of
the parameter's flag token, and one in which it is true yields exactly
one occurrence; the cleanliness hypothesis pins the counted tokens to
the ones contributed for that parameter, excluding equal-looking
tokens smuggled in through unrelated string values. -/
theorem C8_bool_flag_tokens :
    ∀ e ∈ boolFlagTable, ∀ a : ArgMap, CleanFor a e.2.2.1 e.2.2.2 →
      ((amLookup a e.2.2.1 = none ∨ amLookup a e.2.2.1 = some (Value.vBool false)) →
        (buildFor e.1 e.2.1 a).count e.2.2.2 = 0) ∧
      (amLookup a e.2.2.1 = some (Value.vBool true) →
        (buildFor e.1 e.2.1 a).count e.2.2.2 = 1) := by
  intro e he
  have main : ∀ a : ArgMap, CleanFor a e.2.2.1 e.2.2.2 →
      (buildFor e.1 e.2.1 a).count e.2.2.2 =
        (boolFlag a e.2.2.1 e.2.2.2).count e.2.2.2 := by
    fin_cases he <;> intro a hc
    · show (["tree"] ++ buildTreeArgs a).count "--sizes" =
        (boolFlag a "sizes" "--sizes").count "--sizes"
      simp only [
        buildTreeArgs, List.count_append,
        count_flagStr_zero a "sizes" "--sizes" "path" "--path" hc (by decide) (by decide),
        count_flagStr_zero a "sizes" "--sizes" "depth" "--depth" hc (by decide) (by decide),
        count_boolFlag_ne a "--sizes" "no_gitignore" "--no-gitignore" (by decide),
        (by decide : (["tree"] : List String).count "--sizes" = 0)]
      omega
    · show (["tree"] ++ buildTreeArgs a).count "--no-gitignore" =
        (boolFlag a "no_gitignore" "--no-gitignore").count "--no-gitignore"
      simp only [
        buildTreeArgs, List.count_append,
        count_flagStr_zero a "no_gitignore" "--no-gitignore" "path" "--path" hc (by decide)
          (by decide),
        count_flagStr_zero a "no_gitignore" "--no-gitignore" "depth" "--depth" hc (by decide)
          (by decide),
        count_boolFlag_ne a "--no-gitignore" "sizes" "--sizes" (by decide),
        (by decide : (["tree"] : List String).count "--no-gitignore" = 0)]
      omega
    · show (["grep"] ++ buildGrepArgs a).count "-i" =
        (boolFlag a "ignore_case" "-i").count "-i"
      simp only [
        buildGrepArgs, List.count_append,
        count_posStr_zero a "ignore_case" "-i" "pattern" hc (by decide),
        count_posList_zero a "ignore_case" "-i" "paths" hc (by decide),
        count_boolFlag_ne a "-i" "line_numbers" "-n" (by decide),
        count_boolFlag_ne a "-i" "files_only" "-l" (by decide),
        (by decide : (["grep"] : List String).count "-i" = 0)]
      omega
    · show (["grep"] ++ buildGrepArgs a).count "-n" =
        (boolFlag a "line_numbers" "-n").count "-n"
      simp only [
        buildGrepArgs, List.count_append,
        count_posStr_zero a "line_numbers" "-n" "pattern" hc (by decide),
        count_posList_zero a "line_numbers" "-n" "paths" hc (by decide),
        count_boolFlag_ne a "-n" "ignore_case" "-i" (by decide),
        count_boolFlag_ne a "-n" "files_only" "-l" (by decide),
        (by decide : (["grep"] : List String).count "-n" = 0)]
      omega
    · show (["grep"] ++ buildGrepArgs a).count "-l" =
        (boolFlag a "files_only" "-l").count "-l"
      simp only [
        buildGrepArgs, List.count_append,
        count_posStr_zero a "files_only" "-l" "pattern" hc (by decide),
        count_posList_zero a "files_only" "-l" "paths" hc (by decide),
        count_boolFlag_ne a "-l" "ignore_case" "-i" (by decide),
        count_boolFlag_ne a "-l" "line_numbers" "-n" (by decide),
        (by decide : (["grep"] : List String).count "-l" = 0)]
      omega
    · show (["multiexists"] ++ buildMultiexistsArgs a).count "--verbose" =
        (boolFlag a "verbose" "--verbose").count "--verbose"
      simp only [
        buildMultiexistsArgs, List.count_append,
        count_posList_zero a "verbose" "--verbose" "paths" hc (by decide),
        (by decide : (["multiexists"] : List String).count "--verbose" = 0),
        (by decide : (["--no-fail"] : List String).count "--verbose" = 0)]
      omega
    · show (["markdown", "headers"] ++ buildMarkdownHeadersArgs a).count "--plain" =
        (boolFlag a "plain" "--plain").count "--plain"
      simp only [
        buildMarkdownHeadersArgs, List.count_append,
        count_posStr_zero a "plain" "--plain" "file" hc (by decide),
        count_flagStr_zero a "plain" "--plain" "level" "--level" hc (by decide) (by decide),
        (by decide : (["markdown", "headers"] : List String).count "--plain" = 0)]
      omega
    · show (["discover-tests"] ++ buildDiscoverTestsArgs a).count "--json" =
        (boolFlag a "json" "--json").count "--json"
      simp only [
        buildDiscoverTestsArgs, List.count_append,
        count_flagStr_zero a "json" "--json" "path" "--path" hc (by decide) (by decide),
        (by decide : (["discover-tests"] : List String).count "--json" = 0)]
      omega
    · show (["multigrep"] ++ buildMultigrepArgs a).count "--ignore-case" =
        (boolFlag a "ignore_case" "--ignore-case").count "--ignore-case"
      simp only [
        buildMultigrepArgs, List.count_append,
        count_flagStr_zero a "ignore_case" "--ignore-case" "keywords" "--keywords" hc
          (by decide) (by decide),
        count_flagStr_zero a "ignore_case" "--ignore-case" "path" "--path" hc (by decide)
          (by decide),
        count_flagStr_zero a "ignore_case" "--ignore-case" "extensions" "--extensions" hc
          (by decide) (by decide),
        count_flagStr_zero a "ignore_case" "--ignore-case" "max_per_keyword"
          "--max-per-keyword" hc (by decide) (by decide),
        count_flagStr_zero a "ignore_case" "--ignore-case" "output_dir" "--output-dir" hc
          (by decide) (by decide),
        count_boolFlag_ne a "--ignore-case" "definitions_only" "--definitions-only"
          (by decide),
        count_boolFlag_ne a "--ignore-case" "json" "--json" (by decide),
        (by decide : (["multigrep"] : List String).count "--ignore-case" = 0)]
      omega
    · show (["multigrep"] ++ buildMultigrepArgs a).count "--definitions-only" =
        (boolFlag a "definitions_only" "--definitions-only").count "--definitions-only"
      simp only [
        buildMultigrepArgs, List.count_append,
        count_flagStr_zero a "definitions_only" "--definitions-only" "keywords" "--keywords"
          hc (by decide) (by decide),
        count_flagStr_zero a "definitions_only" "--definitions-only" "path" "--path" hc
          (by decide) (by decide),
        count_flagStr_zero a "definitions_only" "--definitions-only" "extensions"
          "--extensions" hc (by decide) (by decide),
        count_flagStr_zero a "definitions_only" "--definitions-only" "max_per_keyword"
          "--max-per-keyword" hc (by decide) (by decide),
        count_flagStr_zero a "definitions_only" "--definitions-only" "output_dir"
          "--output-dir" hc (by decide) (by decide),
        count_boolFlag_ne a "--definitions-only" "ignore_case" "--ignore-case" (by decide),
        count_boolFlag_ne a "--definitions-only" "json" "--json" (by decide),
        (by decide : (["multigrep"] : List String).count "--definitions-only" = 0)]
      omega
    · show (["multigrep"] ++ buildMultigrepArgs a).count "--json" =
        (boolFlag a "json" "--json").count "--json"
      simp only [
        buildMultigrepArgs, List.count_append,
        count_flagStr_zero a "json" "--json" "keywords" "--keywords" hc (by decide)
          (by decide),
        count_flagStr_zero a "json" "--json" "path" "--path" hc (by decide) (by decide),
        count_flagStr_zero a "json" "--json" "extensions" "--extensions" hc (by decide)
          (by decide),
        count_flagStr_zero a "json" "--json" "max_per_keyword" "--max-per-keyword" hc
          (by decide) (by decide),
        count_flagStr_zero a "json" "--json" "output_dir" "--output-dir" hc (by decide)
          (by decide),
        count_boolFlag_ne a "--json" "ignore_case" "--ignore-case" (by decide),
        count_boolFlag_ne a "--json" "definitions_only" "--definitions-only" (by decide),
        (by decide : (["multigrep"] : List String).count "--json" = 0)]
      omega
    · show (["analyze-deps"] ++ buildAnalyzeDepsArgs a).count "--json" =
        (boolFlag a "json" "--json").count "--json"
      simp only [
        buildAnalyzeDepsArgs, List.count_append,
        count_posStr_zero a "json" "--json" "file" hc (by decide),
        (by decide : (["analyze-deps"] : List String).count "--json" = 0)]
      omega
    · show (["detect"] ++ buildDetectArgs a).count "--json" =
        (boolFlag a "json" "--json").count "--json"
      simp only [
        buildDetectArgs, List.count_append,
        count_flagStr_zero a "json" "--json" "path" "--path" hc (by decide) (by decide),
        (by decide : (["detect"] : List String).count "--json" = 0)]
      omega
    · show (["count"] ++ buildCountArgs a).count "--recursive" =
        (boolFlag a "recursive" "--recursive").count "--recursive"
      simp only [
        buildCountArgs, List.count_append,
        count_flagStr_zero a "recursive" "--recursive" "mode" "--mode" hc (by decide)
          (by decide),
        count_posStr_zero a "recursive" "--recursive" "target" hc (by decide),
        count_flagStr_zero a "recursive" "--recursive" "pattern" "--pattern" hc (by decide)
          (by decide),
        (by decide : (["count"] : List String).count "--recursive" = 0)]
      omega
    · show (["summarize-dir"] ++ buildSummarizeDirArgs a).count "--recursive" =
        (boolFlag a "recursive" "--recursive").count "--recursive"
      simp only [
        buildSummarizeDirArgs, List.count_append,
        count_flagStr_zero a "recursive" "--recursive" "path" "--path" hc (by decide)
          (by decide),
        count_flagStr_zero a "recursive" "--recursive" "format" "--format" hc (by decide)
          (by decide),
        count_flagStr_zero a "recursive" "--recursive" "glob" "--glob" hc (by decide)
          (by decide),
        count_flagStr_zero a "recursive" "--recursive" "max_tokens" "--max-tokens" hc
          (by decide) (by decide),
        (by decide : (["summarize-dir"] : List String).count "--recursive" = 0)]
      omega
    · show (["deps"] ++ buildDepsArgs a).count "--json" =
        (boolFlag a "json" "--json").count "--json"
      simp only [
        buildDepsArgs, List.count_append,
        count_posStr_zero a "json" "--json" "manifest" hc (by decide),
        count_flagStr_zero a "json" "--json" "type" "--type" hc (by decide) (by decide),
        (by decide : (["deps"] : List String).count "--json" = 0)]
      omega
    · show (["git-context"] ++ buildGitContextArgs a).count "--include-diff" =
        (boolFlag a "include_diff" "--include-diff").count "--include-diff"
      simp only [
        buildGitContextArgs, List.count_append,
        count_flagStr_zero a "include_diff" "--include-diff" "path" "--path" hc (by decide)
          (by decide),
        count_flagStr_zero a "include_diff" "--include-diff" "since" "--since" hc (by decide)
          (by decide),
        count_flagStr_zero a "include_diff" "--include-diff" "max_commits" "--max-commits"
          hc (by decide) (by decide),
        count_boolFlag_ne a "--include-diff" "json" "--json" (by decide),
        (by decide : (["git-context"] : List String).count "--include-diff" = 0)]
      omega
    · show (["git-context"] ++ buildGitContextArgs a).count "--json" =
        (boolFlag a "json" "--json").count "--json"
      simp only [
        buildGitContextArgs, List.count_append,
        count_flagStr_zero a "json" "--json" "path" "--path" hc (by decide) (by decide),
        count_flagStr_zero a "json" "--json" "since" "--since" hc (by decide) (by decide),
        count_flagStr_zero a "json" "--json" "max_commits" "--max-commits" hc (by decide)
          (by decide),
        count_boolFlag_ne a "--json" "include_diff" "--include-diff" (by decide),
        (by decide : (["git-context"] : List String).count "--json" = 0)]
      omega
    · show (["validate-plan"] ++ buildValidatePlanArgs a).count "--json" =
        (boolFlag a "json" "--json").count "--json"
      simp only [
        buildValidatePlanArgs, List.count_append,
        count_vplanSeg_zero a "json" "--json" hc (by decide) (by decide) (by decide),
        (by decide : (["validate-plan"] : List String).count "--json" = 0)]
      omega
    · show (["partition-work"] ++ buildPartitionWorkArgs a).count "--verbose" =
        (boolFlag a "verbose" "--verbose").count "--verbose"
      simp only [
        buildPartitionWorkArgs, List.count_append,
        count_flagStr_zero a "verbose" "--verbose" "stories" "--stories" hc (by decide)
          (by decide),
        count_flagStr_zero a "verbose" "--verbose" "tasks" "--tasks" hc (by decide)
          (by decide),
        count_boolFlag_ne a "--verbose" "json" "--json" (by decide),
        (by decide : (["partition-work"] : List String).count "--verbose" = 0)]
      omega
    · show (["partition-work"] ++ buildPartitionWorkArgs a).count "--json" =
        (boolFlag a "json" "--json").count "--json"
      simp only [
        buildPartitionWorkArgs, List.count_append,
        count_flagStr_zero a "json" "--json" "stories" "--stories" hc (by decide)
          (by decide),
        count_flagStr_zero a "json" "--json" "tasks" "--tasks" hc (by decide) (by decide),
        count_boolFlag_ne a "--json" "verbose" "--verbose" (by decide),
        (by decide : (["partition-work"] : List String).count "--json" = 0)]
      omega
    · show (["repo-root"] ++ buildRepoRootArgs a).count "--validate" =
        (boolFlag a "validate" "--validate").count "--validate"
      simp only [
        buildRepoRootArgs, List.count_append,
        count_flagStr_zero a "validate" "--validate" "path" "--path" hc (by decide)
          (by decide),
        (by decide : (["repo-root"] : List String).count "--validate" = 0)]
      omega
    · show (["init-tracking"] ++ buildInitArgs a).count "--force" =
        (boolFlag a "force" "--force").count "--force"
      simp only [
        buildInitArgs, List.count_append,
        count_flagStr_zero a "force" "--force" "output" "--output" hc (by decide)
          (by decide),
        (by decide : (["init-tracking"] : List String).count "--force" = 0)]
      omega
    · show (["add-clarification"] ++ buildAddArgs a).count "--check-match" =
        (boolFlag a "check_match" "--check-match").count "--check-match"
      simp only [
        buildAddArgs, List.count_append,
        count_flagStr_zero a "check_match" "--check-match" "tracking_file"
          "--tracking-file" hc (by decide) (by decide),
        count_flagStr_zero a "check_match" "--check-match" "question" "--question" hc
          (by decide) (by decide),
        count_flagStr_zero a "check_match" "--check-match" "answer" "--answer" hc
          (by decide) (by decide),
        count_flagStr_zero a "check_match" "--check-match" "id" "--id" hc (by decide)
          (by decide),
        count_flagStr_zero a "check_match" "--check-match" "sprint_id" "--sprint-id" hc
          (by decide) (by decide),
        count_flagStr_zero a "check_match" "--check-match" "context_tags" "--context-tags"
          hc (by decide) (by decide),
        (by decide : (["add-clarification"] : List String).count "--check-match" = 0)]
      omega
    · show (["promote-clarification"] ++ buildPromoteArgs a).count "--force" =
        (boolFlag a "force" "--force").count "--force"
      simp only [
        buildPromoteArgs, List.count_append,
        count_flagStr_zero a "force" "--force" "tracking_file" "--tracking-file" hc
          (by decide) (by decide),
        count_flagStr_zero a "force" "--force" "id" "--id" hc (by decide) (by decide),
        count_flagStr_zero a "force" "--force" "target" "--target" hc (by decide)
          (by decide),
        (by decide : (["promote-clarification"] : List String).count "--force" = 0)]
      omega
    · show (["list-entries"] ++ buildListArgs a).count "--json" =
        (boolFlag a "json_output" "--json").count "--json"
      simp only [
        buildListArgs, List.count_append,
        count_posStr_zero a "json_output" "--json" "tracking_file" hc (by decide),
        count_flagStr_zero a "json_output" "--json" "status" "--status" hc (by decide)
          (by decide),
        count_flagStr_zero a "json_output" "--json" "min_occurrences" "--min-occurrences"
          hc (by decide) (by decide),
        (by decide : (["list-entries"] : List String).count "--json" = 0)]
      omega
  intro a hc
  refine ⟨fun h => ?_, fun h => ?_⟩
  · rw [main a hc]
    rcases h with h | h
    · exact count_boolFlag_none a _ _ h
    · exact count_boolFlag_false a _ _ h
  · rw [main a hc]
    exact count_boolFlag_true a _ _ h

/-- C8 witness: the boolean-flag theorem at the grep operation's
ignore_case parameter with a concrete clean argument map. -/
theorem C8_witness :
    (buildFor SrvTag.support "grep"
      [("pattern", Value.vStr "TODO"), ("ignore_case", Value.vBool true)]).count "-i" = 1 :=
  (C8_bool_flag_tokens (SrvTag.support, "grep", "ignore_case", "-i") (by decide)
    [("pattern", Value.vStr "TODO"), ("ignore_case", Value.vBool true)] (by decide)).2
    (by decide)

end LlmTools
